import Mathlib

/-!
Verification of the transaction ledger calculator and lifecycle of the
accounting backend, together with the error-response and security-header
middleware of `backend/server.py`.

The ledger calculator itself (`compute_totals`, `post`, `apply_payment`,
`void`) lives in the backend `api/` modules, which are not part of the
sources available here; only `server.py` and the HTTP smoke-test script
are.  Those operations are therefore modelled from the specification
(each such definition carries a doc comment saying so), while the
exception handlers and the security-headers middleware are embedded
directly from `backend/server.py`.

All monetary arithmetic is carried out over `ℚ` (the spec demands a
fixed-point/decimal type, never binary floating point; the rationals are
an exact superset of every decimal fixed-point type, and none of the
claims hinge on 2-digit rounding, which the spec defers to persistence
time anyway).
-/

namespace Ledger

/-- The four constrained monetary fields of a line, used by validation
errors to name the offending field. -/
inductive Field where
  | quantity
  | unit_price
  | discount_amount
  | tax_amount
deriving DecidableEq, Repr, Fintype

/-- Modelled from the spec: a **Line** of a transaction (§3).  The backend
module holding the line model (`api/` transaction schemas) is not among the
sources; fields follow the spec's Line record.  `line_type`, the optional
item reference and the description play no role in the totals computation
and are omitted. -/
structure Line where
  line_number : Nat
  quantity : ℚ
  unit_price : ℚ
  discount_amount : ℚ
  tax_amount : ℚ
deriving DecidableEq, Repr

/-- The value of the named constrained field of a line. -/
def fieldValue (l : Line) : Field → ℚ
  | .quantity => l.quantity
  | .unit_price => l.unit_price
  | .discount_amount => l.discount_amount
  | .tax_amount => l.tax_amount

/-- Modelled from the spec: the typed error taxonomy of §7 restricted to
the errors the ledger component raises (`ValidationError`,
`ConflictError`, `OverpaymentError`); the backend error classes are not
among the sources.  A `ValidationError` names the offending line_number
and field. -/
inductive LedgerError where
  | validationError (line_number : Nat) (field : Field)
  | conflictError (msg : String)
  | overpaymentError
deriving DecidableEq, Repr

/-- Modelled from the spec: document-level monetary totals
(subtotal, tax_amount, total_amount) returned by `compute_totals` (§4.1). -/
structure Totals where
  subtotal : ℚ
  tax_amount : ℚ
  total_amount : ℚ
deriving DecidableEq, Repr

/-- Modelled from the spec: the §4.1 input constraint on a single line —
each of quantity, unit_price, discount_amount, tax_amount must be ≥ 0;
a violating line yields a `ValidationError` naming the line_number and
the first offending field. -/
def validateLine (l : Line) : Option LedgerError :=
  if l.quantity < 0 then some (.validationError l.line_number .quantity)
  else if l.unit_price < 0 then some (.validationError l.line_number .unit_price)
  else if l.discount_amount < 0 then some (.validationError l.line_number .discount_amount)
  else if l.tax_amount < 0 then some (.validationError l.line_number .tax_amount)
  else none

/-- First validation error among the lines, scanning in order. -/
def firstInvalid : List Line → Option LedgerError
  | [] => none
  | l :: ls =>
    match validateLine l with
    | some e => some e
    | none => firstInvalid ls

/-- The line's contribution to the document subtotal:
quantity × unit_price − discount_amount (tax excluded from subtotal). -/
def lineSubtotal (l : Line) : ℚ :=
  l.quantity * l.unit_price - l.discount_amount

/-- Accumulating pass over the lines: running subtotal and running
document tax. -/
def computeTotalsAux : List Line → ℚ → ℚ → ℚ × ℚ
  | [], s, t => (s, t)
  | l :: ls, s, t => computeTotalsAux ls (s + lineSubtotal l) (t + l.tax_amount)

/-- Modelled from the spec: `compute_totals` (§4.1) — the backend module
implementing it is not among the sources.  Validates every line
(ValidationError naming line_number and field on the first violation),
then returns subtotal = Σ(quantityᵢ × unit_priceᵢ − discount_amountᵢ),
tax_amount = Σ(tax_amountᵢ), total_amount = subtotal + tax_amount.
Pure function; zero lines give all-zero totals. -/
def compute_totals (lines : List Line) : Except LedgerError Totals :=
  match firstInvalid lines with
  | some e => .error e
  | none =>
    let p := computeTotalsAux lines 0 0
    .ok { subtotal := p.1, tax_amount := p.2, total_amount := p.1 + p.2 }

/-- The accumulating pass computes the mapped sums. -/
theorem computeTotalsAux_eq (ls : List Line) (s t : ℚ) :
    computeTotalsAux ls s t =
      (s + (ls.map lineSubtotal).sum, t + (ls.map Line.tax_amount).sum) := by
  induction ls generalizing s t with
  | nil => simp [computeTotalsAux]
  | cons l ls ih =>
    simp only [computeTotalsAux, ih, List.map_cons, List.sum_cons]
    exact Prod.ext (by ring) (by ring)

/-- Modelled from the spec: the **Transaction** record of §3 restricted to
what the §4.2 lifecycle manipulates — the backend transaction model is not
among the sources.  `unreversed_applications` counts payment applications
applied and not yet reversed, which gate the void transition;
identity/party/date fields play no role in the claims and are omitted. -/
structure Transaction where
  subtotal : ℚ
  tax_amount : ℚ
  total_amount : ℚ
  balance_due : ℚ
  is_posted : Bool
  is_void : Bool
  posting_date : Option String
  void_reason : Option String
  unreversed_applications : Nat
deriving DecidableEq, Repr

/-- Modelled from the spec: **create** (§4.2) — always enters `draft`
(is_posted = false, is_void = false) with totals computed per §4.1;
balance_due is only initialized at posting time. -/
def create (lines : List Line) : Except LedgerError Transaction :=
  match compute_totals lines with
  | .error e => .error e
  | .ok tot =>
    .ok { subtotal := tot.subtotal
          tax_amount := tot.tax_amount
          total_amount := tot.total_amount
          balance_due := 0
          is_posted := false
          is_void := false
          posting_date := none
          void_reason := none
          unreversed_applications := 0 }

/-- Modelled from the spec: **post**(posting_date) (§4.2) — allowed only
from `draft`; a second post, or posting a void transaction, is rejected
with `ConflictError`; success sets is_posted, stamps posting_date and
initializes balance_due to total_amount. -/
def post (t : Transaction) (pd : String) : Except LedgerError Transaction :=
  if t.is_posted then .error (.conflictError "transaction already posted")
  else if t.is_void then .error (.conflictError "transaction is void")
  else .ok { t with is_posted := true, posting_date := some pd,
                    balance_due := t.total_amount }

/-- Modelled from the spec: **apply_payment**(amount_applied,
discount_taken) (§4.2) — allowed only when is_posted = true and
is_void = false; rejects (amount_applied + discount_taken) >
current balance_due with `OverpaymentError`; otherwise decrements
balance_due by (amount_applied + discount_taken). -/
def apply_payment (t : Transaction) (amount_applied discount_taken : ℚ) :
    Except LedgerError Transaction :=
  if ¬ t.is_posted then .error (.conflictError "transaction not posted")
  else if t.is_void then .error (.conflictError "transaction is void")
  else if t.balance_due < amount_applied + discount_taken then
    .error .overpaymentError
  else
    .ok { t with balance_due := t.balance_due - (amount_applied + discount_taken),
                 unreversed_applications := t.unreversed_applications + 1 }

/-- Modelled from the spec: **void**(reason) (§4.2) — allowed from `draft`
or `posted`, not allowed if any payment has been applied and not yet
reversed (`ConflictError`); success sets is_void, records the reason, and
makes balance_due 0. -/
def Transaction.applyVoid (t : Transaction) (reason : String) :
    Except LedgerError Transaction :=
  if t.is_void then .error (.conflictError "transaction already void")
  else if t.unreversed_applications ≠ 0 then
    .error (.conflictError "transaction has unreversed payment applications")
  else .ok { t with is_void := true, void_reason := some reason, balance_due := 0 }

/-- Modelled from the spec (§4.2 failure semantics): a rejected transition
leaves the entity unchanged — the caller keeps the prior state on error.
`runPayment` is the caller-side view of one apply_payment call. -/
def runPayment (t : Transaction) (a d : ℚ) : Transaction :=
  match apply_payment t a d with
  | .ok t2 => t2
  | .error _ => t

/-- Caller-side view of the post transition: on rejection the transaction
is unchanged. -/
def runPost (t : Transaction) (pd : String) : Transaction :=
  match post t pd with
  | .ok t2 => t2
  | .error _ => t

/-- Caller-side view of the void transition: on rejection the transaction
is unchanged. -/
def runVoid (t : Transaction) (reason : String) : Transaction :=
  match t.applyVoid reason with
  | .ok t2 => t2
  | .error _ => t

/-- A sequence of apply_payment calls, each rejected one leaving the
transaction unchanged. -/
def applySeq (t : Transaction) : List (ℚ × ℚ) → Transaction
  | [] => t
  | (a, d) :: ps => applySeq (runPayment t a d) ps

/-- Modelled from the spec: `paid` is a derived read-only status — exactly
balance_due = 0 — not a stored flag (§4.2); accordingly `Transaction`
stores no paid flag and this predicate reads only balance_due. -/
def isPaid (t : Transaction) : Bool :=
  decide (t.balance_due = 0)

end Ledger

namespace Server

/-- The uniform error response body shaped by both exception handlers in
`backend/server.py`: `{error, status_code, path}`. -/
structure ErrorBody where
  error : String
  status_code : Nat
  path : String
deriving DecidableEq, Repr

/-- A JSON response as produced by the exception handlers: an HTTP status
code and the error body. -/
structure ErrorResponse where
  status_code : Nat
  content : ErrorBody
deriving DecidableEq, Repr

/-- Embeds `http_exception_handler` of `backend/server.py` (lines
197–214): for an `HTTPException` with the given status code and detail
raised on a request at `path`, returns a JSONResponse with that status
code and body `{error: detail, status_code, path}` (logging side effects
omitted). -/
def http_exception_handler (path : String) (excStatusCode : Nat)
    (excDetail : String) : ErrorResponse :=
  { status_code := excStatusCode
    content := { error := excDetail, status_code := excStatusCode, path := path } }

/-- Embeds `general_exception_handler` of `backend/server.py` (lines
216–233): any unhandled exception (whatever its message `excMsg`) yields
status 500 with body `{error: "Internal server error", status_code: 500,
path}` (logging side effects omitted; the exception's message reaches the
log only, never the response). -/
def general_exception_handler (path : String) (excMsg : String) : ErrorResponse :=
  { status_code := 500
    content := { error := "Internal server error", status_code := 500, path := path } }

/-- An HTTP response as seen by the middleware: status code, headers
(a set-by-key mapping, modelled as an association list), body. -/
structure HttpResponse where
  status_code : Nat
  headers : List (String × String)
  body : String
deriving DecidableEq, Repr

/-- `response.headers[k] = v`: set the header `k` to `v`, replacing any
previous value for that key. -/
def setHeader (r : HttpResponse) (k v : String) : HttpResponse :=
  { r with headers := (k, v) :: r.headers.filter (fun p => p.1 ≠ k) }

/-- Read a header by key. -/
def getHeader (r : HttpResponse) (k : String) : Option String :=
  (r.headers.find? (fun p => p.1 == k)).map Prod.snd

/-- Embeds the `add_security_headers` middleware of `backend/server.py`
(lines 236–244): awaits the downstream response and sets the four
security headers on it before returning it. -/
def add_security_headers (response : HttpResponse) : HttpResponse :=
  setHeader (setHeader (setHeader (setHeader response
    "X-Content-Type-Options" "nosniff")
    "X-Frame-Options" "DENY")
    "X-XSS-Protection" "1; mode=block")
    "Strict-Transport-Security" "max-age=31536000; includeSubDomains"

end Server

namespace Ledger

/-- A line passes validation iff all four constrained fields are ≥ 0. -/
theorem validateLine_eq_none_iff (l : Line) :
    validateLine l = none ↔ ∀ f, 0 ≤ fieldValue l f := by
  unfold validateLine
  split_ifs with h1 h2 h3 h4
  · simp only [reduceCtorEq, false_iff, not_forall]
    exact ⟨.quantity, by simpa [fieldValue] using h1⟩
  · simp only [reduceCtorEq, false_iff, not_forall]
    exact ⟨.unit_price, by simpa [fieldValue] using h2⟩
  · simp only [reduceCtorEq, false_iff, not_forall]
    exact ⟨.discount_amount, by simpa [fieldValue] using h3⟩
  · simp only [reduceCtorEq, false_iff, not_forall]
    exact ⟨.tax_amount, by simpa [fieldValue] using h4⟩
  · simp only [true_iff]
    intro f
    cases f <;> simp [fieldValue] <;> linarith

/-- A validation error on a line names that line's number and a field of
that line whose value is negative. -/
theorem validateLine_eq_some (l : Line) (e : LedgerError)
    (h : validateLine l = some e) :
    ∃ f, e = .validationError l.line_number f ∧ fieldValue l f < 0 := by
  unfold validateLine at h
  split_ifs at h with h1 h2 h3 h4
  · exact ⟨.quantity, by simpa using h.symm, h1⟩
  · exact ⟨.unit_price, by simpa using h.symm, h2⟩
  · exact ⟨.discount_amount, by simpa using h.symm, h3⟩
  · exact ⟨.tax_amount, by simpa using h.symm, h4⟩

/-- Scanning finds no error iff every line passes validation. -/
theorem firstInvalid_eq_none_iff (lines : List Line) :
    firstInvalid lines = none ↔ ∀ l ∈ lines, validateLine l = none := by
  induction lines with
  | nil => simp [firstInvalid]
  | cons l ls ih =>
    unfold firstInvalid
    cases hv : validateLine l with
    | some e => simp [hv]
    | none => simpa [hv] using ih

/-- An error found by the scan comes from some line of the list. -/
theorem firstInvalid_eq_some (lines : List Line) (e : LedgerError)
    (h : firstInvalid lines = some e) :
    ∃ l ∈ lines, validateLine l = some e := by
  induction lines with
  | nil => simp [firstInvalid] at h
  | cons l ls ih =>
    unfold firstInvalid at h
    cases hv : validateLine l with
    | some e2 =>
      rw [hv] at h
      exact ⟨l, by simp, by simpa [hv] using h⟩
    | none =>
      rw [hv] at h
      obtain ⟨l2, hl2, he⟩ := ih h
      exact ⟨l2, by simp [hl2], he⟩

/-- The invoice scenario lines of the spec (§8): (quantity, unit_price,
discount_amount, tax_amount) = (2, 100, 10, 15) and (1, 50, 5, 20). -/
def specLine1 : Line := ⟨1, 2, 100, 10, 15⟩

/-- Second line of the spec's invoice scenario. -/
def specLine2 : Line := ⟨2, 1, 50, 5, 20⟩

/-- The bill fixture of `test_create_bill` in `backend_test.py`
(lines 5171–5189): (3, 75, 15, 12) and (10, 120, 50, 80). -/
def billLine1 : Line := ⟨1, 3, 75, 15, 12⟩

/-- Second line of the `test_create_bill` fixture. -/
def billLine2 : Line := ⟨2, 10, 120, 50, 80⟩

/-- The expected totals hard-coded in `test_create_bill`
(`backend_test.py` lines 5226–5228): expected_subtotal = 1160.0,
expected_tax = 92.0, expected_total = 1252.0. -/
def test_create_bill_expected : Totals := ⟨1160, 92, 1252⟩

/-- A line with a negative quantity, violating the §4.1 input constraint. -/
def negQtyLine : Line := ⟨1, -1, 10, 0, 0⟩

/-- C1: for every list of lines, compute_totals returns
subtotal = Σ(quantityᵢ × unit_priceᵢ − discount_amountᵢ),
document tax_amount = Σ(tax_amountᵢ), and
total_amount = subtotal + tax_amount. -/
theorem compute_totals_formula (lines : List Line) (tot : Totals)
    (h : compute_totals lines = .ok tot) :
    tot.subtotal =
      (lines.map (fun l => l.quantity * l.unit_price - l.discount_amount)).sum ∧
    tot.tax_amount = (lines.map (fun l => l.tax_amount)).sum ∧
    tot.total_amount = tot.subtotal + tot.tax_amount := by
  unfold compute_totals at h
  cases he : firstInvalid lines with
  | some e => rw [he] at h; exact absurd h (by simp)
  | none =>
    rw [he] at h
    simp only [computeTotalsAux_eq, zero_add, Except.ok.injEq] at h
    subst h
    exact ⟨rfl, rfl, rfl⟩

/-- Witness for C1 at the spec's invoice scenario: totals (235, 35, 270). -/
theorem compute_totals_formula_witness :
    (⟨235, 35, 270⟩ : Totals).subtotal =
      ([specLine1, specLine2].map
        (fun l => l.quantity * l.unit_price - l.discount_amount)).sum ∧
    (⟨235, 35, 270⟩ : Totals).tax_amount =
      ([specLine1, specLine2].map (fun l => l.tax_amount)).sum ∧
    (⟨235, 35, 270⟩ : Totals).total_amount =
      (⟨235, 35, 270⟩ : Totals).subtotal + (⟨235, 35, 270⟩ : Totals).tax_amount :=
  compute_totals_formula [specLine1, specLine2] ⟨235, 35, 270⟩ (by
    norm_num [compute_totals, firstInvalid, validateLine, computeTotalsAux,
      lineSubtotal, specLine1, specLine2])

/-- C2: on the `test_create_bill` fixture [(3,75,15,12),(10,120,50,80)]
the totals formula yields subtotal 1360, tax 92, total 1452 — and this
differs from the totals hard-coded in the test (1160, 92, 1252), whose
own comment miscomputes (3·75)+(10·120)−15−50 as 1160. -/
theorem test_create_bill_fixture_totals :
    compute_totals [billLine1, billLine2] =
      .ok (⟨1360, 92, 1452⟩ : Totals) ∧
    (⟨1360, 92, 1452⟩ : Totals) ≠ test_create_bill_expected := by
  constructor
  · norm_num [compute_totals, firstInvalid, validateLine, computeTotalsAux,
      lineSubtotal, billLine1, billLine2]
  · intro hc
    rw [test_create_bill_expected] at hc
    have h1160 : (1360 : ℚ) = 1160 := congrArg Totals.subtotal hc
    norm_num at h1160

/-- C3: a negative quantity, unit_price, discount_amount or tax_amount on
some line makes compute_totals return a ValidationError naming an
offending line_number and field; if all fields of every line are ≥ 0,
no such error is raised and totals are returned. -/
theorem compute_totals_validation (lines : List Line) :
    ((∃ l ∈ lines, ∃ f, fieldValue l f < 0) →
      ∃ l ∈ lines, ∃ f, fieldValue l f < 0 ∧
        compute_totals lines = .error (.validationError l.line_number f)) ∧
    ((∀ l ∈ lines, ∀ f, 0 ≤ fieldValue l f) →
      ∃ tot, compute_totals lines = .ok tot) := by
  constructor
  · rintro ⟨l, hl, f, hf⟩
    have hne : firstInvalid lines ≠ none := by
      intro hn
      rw [firstInvalid_eq_none_iff] at hn
      exact absurd ((validateLine_eq_none_iff l).mp (hn l hl) f) (not_le.mpr hf)
    cases he : firstInvalid lines with
    | none => exact absurd he hne
    | some e =>
      obtain ⟨l2, hl2, hv2⟩ := firstInvalid_eq_some lines e he
      obtain ⟨f2, he2, hf2⟩ := validateLine_eq_some l2 e hv2
      refine ⟨l2, hl2, f2, hf2, ?_⟩
      unfold compute_totals
      rw [he, he2]
  · intro hall
    have hn : firstInvalid lines = none := by
      rw [firstInvalid_eq_none_iff]
      exact fun l hl => (validateLine_eq_none_iff l).mpr (hall l hl)
    have hc : compute_totals lines =
        .ok { subtotal := (computeTotalsAux lines 0 0).1
              tax_amount := (computeTotalsAux lines 0 0).2
              total_amount :=
                (computeTotalsAux lines 0 0).1 + (computeTotalsAux lines 0 0).2 } := by
      unfold compute_totals
      rw [hn]
    exact ⟨_, hc⟩

/-- Witness for C3: the negative-quantity line is rejected with a
ValidationError naming it; the all-nonnegative spec lines are accepted. -/
theorem compute_totals_validation_witness :
    (∃ l ∈ [negQtyLine], ∃ f, fieldValue l f < 0 ∧
       compute_totals [negQtyLine] = .error (.validationError l.line_number f)) ∧
    (∃ tot, compute_totals [specLine1, specLine2] = .ok tot) :=
  ⟨(compute_totals_validation [negQtyLine]).1
      ⟨negQtyLine, by simp, Field.quantity, by norm_num [fieldValue, negQtyLine]⟩,
   (compute_totals_validation [specLine1, specLine2]).2 (by
      intro l hl f
      simp only [List.mem_cons, List.not_mem_nil, or_false] at hl
      rcases hl with h | h <;> subst h <;> cases f <;>
        norm_num [fieldValue, specLine1, specLine2])⟩

/-- C4: compute_totals is order-independent — on any permutation of a
line list it returns the same successful totals as on the original. -/
theorem compute_totals_perm (l1 l2 : List Line) (hp : l1.Perm l2)
    (tot : Totals) (h : compute_totals l1 = .ok tot) :
    compute_totals l2 = .ok tot := by
  have h1 : firstInvalid l1 = none := by
    cases he : firstInvalid l1 with
    | none => rfl
    | some e =>
      unfold compute_totals at h
      rw [he] at h
      exact absurd h (by simp)
  have h2 : firstInvalid l2 = none := by
    rw [firstInvalid_eq_none_iff] at h1 ⊢
    exact fun l hl => h1 l (hp.mem_iff.mpr hl)
  unfold compute_totals at h ⊢
  rw [h1] at h
  rw [h2]
  simp only [computeTotalsAux_eq, zero_add] at h ⊢
  rw [← (hp.map lineSubtotal).sum_eq, ← (hp.map Line.tax_amount).sum_eq]
  exact h

/-- Witness for C4: swapping the two spec lines leaves the totals
(235, 35, 270) unchanged. -/
theorem compute_totals_perm_witness :
    compute_totals [specLine2, specLine1] = .ok (⟨235, 35, 270⟩ : Totals) :=
  compute_totals_perm [specLine1, specLine2] [specLine2, specLine1]
    (List.Perm.swap specLine2 specLine1 []) ⟨235, 35, 270⟩ (by
      norm_num [compute_totals, firstInvalid, validateLine, computeTotalsAux,
        lineSubtotal, specLine1, specLine2])

/-- A draft transaction with the spec scenario's totals (235, 35, 270). -/
def draftTx : Transaction :=
  ⟨235, 35, 270, 0, false, false, none, none, 0⟩

/-- The spec scenario's invoice after posting: balance_due = total_amount
= 270. -/
def postedTx : Transaction :=
  ⟨235, 35, 270, 270, true, false, some "2024-01-01", none, 0⟩

/-- A posted transaction carrying one unreversed payment application. -/
def appliedTx : Transaction :=
  ⟨235, 35, 270, 170, true, false, some "2024-01-01", none, 1⟩

/-- C5: post succeeds only from draft (is_posted = false, is_void =
false); posting an already-posted transaction is rejected with a
ConflictError and leaves it unchanged; a successful post sets is_posted,
stamps posting_date and initializes balance_due to total_amount. -/
theorem post_transition :
    (∀ (t t2 : Transaction) (pd : String), post t pd = .ok t2 →
        t.is_posted = false ∧ t.is_void = false) ∧
    (∀ (t : Transaction) (pd : String), t.is_posted = true →
        post t pd = .error (.conflictError "transaction already posted") ∧
        runPost t pd = t) ∧
    (∀ (t : Transaction) (pd : String), t.is_posted = false →
        t.is_void = false →
        post t pd = .ok { t with is_posted := true, posting_date := some pd,
                                 balance_due := t.total_amount }) := by
  refine ⟨?_, ?_, ?_⟩
  · intro t t2 pd h
    unfold post at h
    split_ifs at h with h1 h2
    exact ⟨by simpa using h1, by simpa using h2⟩
  · intro t pd h
    have he : post t pd = .error (.conflictError "transaction already posted") := by
      unfold post
      simp [h]
    exact ⟨he, by unfold runPost; rw [he]⟩
  · intro t pd h1 h2
    unfold post
    simp [h1, h2]

/-- Witness for C5 at the concrete draft/posted transactions. -/
theorem post_transition_witness :
    (draftTx.is_posted = false ∧ draftTx.is_void = false) ∧
    (post postedTx "2024-01-02" =
        .error (.conflictError "transaction already posted") ∧
      runPost postedTx "2024-01-02" = postedTx) ∧
    post draftTx "2024-01-01" =
      .ok { draftTx with is_posted := true, posting_date := some "2024-01-01",
                         balance_due := draftTx.total_amount } :=
  ⟨post_transition.1 draftTx _ "2024-01-01"
      (post_transition.2.2 draftTx "2024-01-01" rfl rfl),
   post_transition.2.1 postedTx "2024-01-02" rfl,
   post_transition.2.2 draftTx "2024-01-01" rfl rfl⟩

/-- Bookkeeping of a successful payment application: the applied sum was
within the balance and the balance decreased by exactly that sum. -/
theorem apply_payment_ok_balance (t t2 : Transaction) (a d : ℚ)
    (h : apply_payment t a d = .ok t2) :
    a + d ≤ t.balance_due ∧ t2.balance_due = t.balance_due - (a + d) := by
  unfold apply_payment at h
  split_ifs at h with h1 h2 h3
  simp only [Except.ok.injEq] at h
  subst h
  exact ⟨le_of_not_lt h3, rfl⟩

/-- A caller-side payment application never drops a nonnegative balance
below zero. -/
theorem runPayment_nonneg (t : Transaction) (a d : ℚ)
    (h : 0 ≤ t.balance_due) : 0 ≤ (runPayment t a d).balance_due := by
  unfold runPayment
  cases hap : apply_payment t a d with
  | error e => simpa using h
  | ok t2 =>
    obtain ⟨hle, hbal⟩ := apply_payment_ok_balance t t2 a d hap
    rw [hbal]
    linarith

/-- C6: on a posted, non-void transaction a payment application whose
(amount_applied + discount_taken) strictly exceeds balance_due is
rejected with OverpaymentError and leaves balance_due unchanged; under
any sequence of payment applications a nonnegative balance_due stays
nonnegative. -/
theorem apply_payment_overpayment :
    (∀ (t : Transaction) (a d : ℚ), t.is_posted = true → t.is_void = false →
        t.balance_due < a + d →
        apply_payment t a d = .error .overpaymentError ∧
        (runPayment t a d).balance_due = t.balance_due) ∧
    (∀ (t : Transaction) (ps : List (ℚ × ℚ)), 0 ≤ t.balance_due →
        0 ≤ (applySeq t ps).balance_due) := by
  constructor
  · intro t a d hp hv hlt
    have he : apply_payment t a d = .error .overpaymentError := by
      unfold apply_payment
      simp [hp, hv, hlt]
    exact ⟨he, by unfold runPayment; rw [he]⟩
  · intro t ps
    induction ps generalizing t with
    | nil =>
      intro h
      simpa [applySeq] using h
    | cons p ps ih =>
      intro h
      cases p with
      | mk a d =>
        simp only [applySeq]
        exact ih _ (runPayment_nonneg t a d h)

/-- Witness for C6: paying 300 against a balance of 270 is rejected and
the balance stays 270; a payment sequence keeps the balance ≥ 0. -/
theorem apply_payment_overpayment_witness :
    (apply_payment postedTx 300 0 = .error .overpaymentError ∧
      (runPayment postedTx 300 0).balance_due = postedTx.balance_due) ∧
    0 ≤ (applySeq postedTx [(300, 0), (100, 0)]).balance_due :=
  ⟨apply_payment_overpayment.1 postedTx 300 0 rfl rfl
      (by norm_num [postedTx]),
   apply_payment_overpayment.2 postedTx [(300, 0), (100, 0)]
      (by norm_num [postedTx])⟩

/-- C7: on a posted, non-void transaction a payment application with
(amount_applied + discount_taken) exactly equal to balance_due succeeds,
leaves balance_due = 0, and the transaction then reads as paid — a status
derived from balance_due = 0, not a stored flag. -/
theorem apply_payment_exact (t : Transaction) (a d : ℚ)
    (hp : t.is_posted = true) (hv : t.is_void = false)
    (he : a + d = t.balance_due) :
    ∃ t2, apply_payment t a d = .ok t2 ∧ t2.balance_due = 0 ∧
      isPaid t2 = true := by
  have hnlt : ¬ t.balance_due < a + d := by
    rw [he]
    exact lt_irrefl _
  refine ⟨{ t with
      balance_due := t.balance_due - (a + d)
      unreversed_applications := t.unreversed_applications + 1 }, ?_, ?_, ?_⟩
  · unfold apply_payment
    simp [hp, hv, hnlt]
  · simp [he]
  · simp [isPaid, he]

/-- Witness for C7: posting gives total_amount = balance_due = 270 and a
payment of exactly 270 zeroes the balance, which then reads as paid. -/
theorem apply_payment_exact_witness :
    ∃ t2, apply_payment postedTx 270 0 = .ok t2 ∧ t2.balance_due = 0 ∧
      isPaid t2 = true :=
  apply_payment_exact postedTx 270 0 rfl rfl (by norm_num [postedTx])

/-- C8: voiding a transaction with an unreversed payment application is
rejected with a ConflictError and leaves it unchanged; a successful void
sets is_void, records the reason, and zeroes balance_due. -/
theorem void_transition :
    (∀ (t : Transaction) (r : String), t.unreversed_applications ≠ 0 →
        (∃ msg, Transaction.applyVoid t r = .error (.conflictError msg)) ∧
        runVoid t r = t) ∧
    (∀ (t : Transaction) (r : String), t.is_void = false →
        t.unreversed_applications = 0 →
        Transaction.applyVoid t r =
          .ok { t with is_void := true, void_reason := some r,
                       balance_due := 0 }) := by
  constructor
  · intro t r h
    cases hv : t.is_void with
    | true =>
      have he : Transaction.applyVoid t r =
          .error (.conflictError "transaction already void") := by
        unfold Transaction.applyVoid
        simp [hv]
      exact ⟨⟨_, he⟩, by unfold runVoid; rw [he]⟩
    | false =>
      have he : Transaction.applyVoid t r =
          .error (.conflictError "transaction has unreversed payment applications") := by
        unfold Transaction.applyVoid
        simp [hv, h]
      exact ⟨⟨_, he⟩, by unfold runVoid; rw [he]⟩
  · intro t r hv h0
    unfold Transaction.applyVoid
    simp [hv, h0]

/-- Witness for C8: a transaction with one unreversed application cannot
be voided and is unchanged; the posted (payment-free) transaction voids
with reason recorded and balance_due zeroed. -/
theorem void_transition_witness :
    ((∃ msg, Transaction.applyVoid appliedTx "duplicate" =
        .error (.conflictError msg)) ∧
      runVoid appliedTx "duplicate" = appliedTx) ∧
    Transaction.applyVoid postedTx "duplicate" =
      .ok { postedTx with is_void := true, void_reason := some "duplicate",
                          balance_due := 0 } :=
  ⟨void_transition.1 appliedTx "duplicate" (by simp [appliedTx]),
   void_transition.2 postedTx "duplicate" rfl rfl⟩

end Ledger

namespace Server

/-- C9: every error surfaced by the two exception handlers of
`backend/server.py` has the uniform body `{error, status_code, path}`
with the body's status_code equal to the HTTP status of the response,
and an unhandled exception yields status 500 with the generic message
"Internal server error", never the exception's own message. -/
theorem error_response_uniform_shape (path excDetail excMsg : String)
    (excStatusCode : Nat) :
    (http_exception_handler path excStatusCode excDetail).content.status_code
        = (http_exception_handler path excStatusCode excDetail).status_code ∧
    (http_exception_handler path excStatusCode excDetail).content.path = path ∧
    (http_exception_handler path excStatusCode excDetail).content.error
        = excDetail ∧
    (general_exception_handler path excMsg).status_code = 500 ∧
    (general_exception_handler path excMsg).content.status_code = 500 ∧
    (general_exception_handler path excMsg).content.path = path ∧
    (general_exception_handler path excMsg).content.error
        = "Internal server error" :=
  ⟨rfl, rfl, rfl, rfl, rfl, rfl, rfl⟩

/-- Looking up any key other than the one a `setHeader` removed-and-set is
unaffected by the removal filter. -/
theorem find_filter_ne (hs : List (String × String)) (k k2 : String)
    (h : k2 ≠ k) :
    (hs.filter (fun p => p.1 ≠ k)).find? (fun p => p.1 == k2) =
      hs.find? (fun p => p.1 == k2) := by
  induction hs with
  | nil => rfl
  | cons p ps ih =>
    by_cases hpk : p.1 = k
    · have hpk2 : (p.1 == k2) = false := by
        simp only [beq_eq_false_iff_ne]
        rw [hpk]
        exact fun hc => h hc.symm
      rw [List.filter_cons_of_neg (by simp [hpk]),
        List.find?_cons_of_neg _ (by simp [hpk2]), ih]
    · rw [List.filter_cons_of_pos (by simp [hpk])]
      by_cases hpk2 : p.1 = k2
      · rw [List.find?_cons_of_pos _ (by simp [hpk2]),
          List.find?_cons_of_pos _ (by simp [hpk2])]
      · rw [List.find?_cons_of_neg _ (by simp [hpk2]),
          List.find?_cons_of_neg _ (by simp [hpk2]), ih]

/-- Reading back the header just set yields the value set. -/
theorem getHeader_setHeader_self (r : HttpResponse) (k v : String) :
    getHeader (setHeader r k v) k = some v := by
  simp [getHeader, setHeader, List.find?_cons_of_pos]

/-- Setting one header leaves every other header unchanged. -/
theorem getHeader_setHeader_ne (r : HttpResponse) (k k2 v : String)
    (h : k2 ≠ k) :
    getHeader (setHeader r k v) k2 = getHeader r k2 := by
  simp only [getHeader, setHeader]
  rw [List.find?_cons_of_neg _ (by
        simp only [Bool.not_eq_true, beq_eq_false_iff_ne]
        exact fun hc => h hc.symm),
    find_filter_ne r.headers k k2 h]

/-- C10: whatever response the downstream handler produced, the
`add_security_headers` middleware returns it carrying all four security
headers with their exact values, without touching status or body. -/
theorem add_security_headers_all (r : HttpResponse) :
    getHeader (add_security_headers r) "X-Content-Type-Options"
        = some "nosniff" ∧
    getHeader (add_security_headers r) "X-Frame-Options" = some "DENY" ∧
    getHeader (add_security_headers r) "X-XSS-Protection"
        = some "1; mode=block" ∧
    getHeader (add_security_headers r) "Strict-Transport-Security"
        = some "max-age=31536000; includeSubDomains" ∧
    (add_security_headers r).status_code = r.status_code ∧
    (add_security_headers r).body = r.body := by
  unfold add_security_headers
  refine ⟨?_, ?_, ?_, ?_, rfl, rfl⟩
  · rw [getHeader_setHeader_ne _ _ _ _ (by decide),
      getHeader_setHeader_ne _ _ _ _ (by decide),
      getHeader_setHeader_ne _ _ _ _ (by decide),
      getHeader_setHeader_self]
  · rw [getHeader_setHeader_ne _ _ _ _ (by decide),
      getHeader_setHeader_ne _ _ _ _ (by decide),
      getHeader_setHeader_self]
  · rw [getHeader_setHeader_ne _ _ _ _ (by decide),
      getHeader_setHeader_self]
  · rw [getHeader_setHeader_self]

end Server
